import Mathlib

/-!
Shallow embedding of `src/stream/TCPThroughputAdaptation.cpp` (VideoCore).

One iteration of `TCPThroughputAdaptation::sampleThread` is modelled as a pure
function `tick` on an explicit state.  Machine floats are modelled by exact
rationals (for all arithmetic that stays algebraic) and by real numbers where
the code calls `atanf` / uses `M_PI_2`.  Timestamps are modelled in whole
seconds (the code compares `duration_cast<seconds>(...).count() > 10`).
Division is the total (Lean) division; the spots where the C++ code would
divide by zero are tracked through the value of the divisor (`turnAvg`,
`timeDelta`) rather than through IEEE special values.
-/

namespace VideoCore

/-- `kWeight = 0.75f` from the constructor. -/
def kWeight : ℚ := 3 / 4

/-- `kPivotSamples = 5`. -/
def kPivotSamples : ℕ := 5

/-- `m_bwSampleCount = 30` set in the constructor initializer list. -/
def bwSampleCount : ℕ := 30

/-- `v = (1 - powf(kWeight, m_bwSampleCount)) / (1 - kWeight)` from the
constructor. -/
def weightNorm : ℚ := (1 - kWeight ^ bwSampleCount) / (1 - kWeight)

/-- `m_bwWeights`: the loop `m_bwWeights.push_back(powf(kWeight, i) / v)` for
`i = 0 .. 29`. -/
def bwWeights : List ℚ := (List.range bwSampleCount).map (fun i => kWeight ^ i / weightNorm)

/-- The persistent per-instance state read and written by one iteration of
`sampleThread`: `m_bwSamples`, `m_turnSamples`, `m_previousTurndown` (whole
seconds), `m_hasFirstTurndown`, `m_previousVector`. -/
structure AdaptState where
  bwSamples : List ℚ
  turnSamples : List ℚ
  previousTurndown : ℕ
  hasFirstTurndown : Bool
  previousVector : ℝ

/-- The constructor state: empty deques, epoch timestamp,
`m_hasFirstTurndown(false)`, `m_previousVector(0.f)`. -/
def initState : AdaptState :=
  { bwSamples := [], turnSamples := [], previousTurndown := 0,
    hasFirstTurndown := false, previousVector := 0 }

/-- The data one loop iteration reads from outside the state: the current
time `now` (whole seconds), the elapsed time `timeDelta` (seconds, rational),
and the two sample deques drained this tick. -/
structure TickInput where
  now : ℕ
  timeDelta : ℚ
  sentSamples : List ℕ
  bufferSizeSamples : List ℕ

/-- `push_front(x)` followed by `if size() > cap pop_back()`, the deque
maintenance pattern used for both `m_bwSamples` and `m_turnSamples`. -/
def pushBounded (cap : ℕ) (x : ℚ) (l : List ℚ) : List ℚ :=
  let l2 := x :: l
  if cap < l2.length then l2.dropLast else l2

/-- `std::min(1.f, std::max(atanf(slope) / kPI_2, 0.1f))` — the nonlinear
magnitude applied to the direction when `m_turnSamples` is non-empty. -/
noncomputable def magnitude (slope : ℝ) : ℝ :=
  min 1 (max (Real.arctan slope / (Real.pi / 2)) (1 / 10))

/-- Everything one loop iteration produces: the new persistent state, the
raw classified direction (the value of `vec` before the magnitude scaling),
the contents of `m_turnSamples` at the point line 126 tests it, and the pair
`(vec, turnAvg)` handed to the callback. -/
structure TickResult where
  state : AdaptState
  direction : ℚ
  turnSamplesAfter : List ℚ
  vec : ℝ
  turnAvg : ℚ

/-- One iteration of the body of the `while(!m_exiting)` loop in
`TCPThroughputAdaptation::sampleThread` (lines 65–160), minus the lock/wait
plumbing: bandwidth estimation, turndown classification, pivot-window
maintenance, vector synthesis, callback arguments. -/
noncomputable def tick (st : AdaptState) (inp : TickInput) : TickResult :=
  let totalSent : ℕ := inp.sentSamples.sum
  let detectedBytesPerSec : ℚ := (totalSent : ℚ) / inp.timeDelta
  let previousTurndownDiff : ℕ := inp.now - st.previousTurndown
  let bwSamples2 : List ℚ := pushBounded bwSampleCount detectedBytesPerSec st.bwSamples
  let avg : ℚ := (List.zipWith (fun a b => a * b) bwSamples2 bwWeights).sum
  if inp.bufferSizeSamples = [] then
    { state := { st with bwSamples := bwSamples2 }, direction := 0,
      turnSamplesAfter := st.turnSamples, vec := 0, turnAvg := 0 }
  else
    let back : ℕ := inp.bufferSizeSamples.getLastD 0
    let front : ℕ := inp.bufferSizeSamples.headI
    let bufferDelta : ℤ := (back : ℤ) - (front : ℤ)
    let cls : ℚ × ℕ × Bool :=
      if back = 0 ∧ (st.hasFirstTurndown = false ∨ 10 < previousTurndownDiff) then
        (1, st.previousTurndown, st.hasFirstTurndown)
      else if front < back then
        (-1, inp.now, true)
      else
        (0, st.previousTurndown, st.hasFirstTurndown)
    let dir : ℚ := cls.1
    let turn1 : List ℚ :=
      if st.previousVector < 0 ∧ 0 ≤ dir then
        pushBounded kPivotSamples bwSamples2.headI st.turnSamples
      else st.turnSamples
    let turn2 : List ℚ :=
      if bufferDelta < 0 ∧ 0 < back then
        pushBounded kPivotSamples detectedBytesPerSec turn1
      else turn1
    let turnAvg : ℚ := if 0 < turn2.length then turn2.sum / (turn2.length : ℚ) else 0
    let vecFinal : ℝ :=
      if 0 < turn2.length then
        let a : ℚ := (detectedBytesPerSec - avg) / turnAvg
        (dir : ℝ) * magnitude (3 * (a : ℝ) ^ 2)
      else (dir : ℝ)
    { state := { bwSamples := bwSamples2, turnSamples := turn2,
                 previousTurndown := cls.2.1, hasFirstTurndown := cls.2.2,
                 previousVector := vecFinal },
      direction := dir, turnSamplesAfter := turn2, vec := vecFinal, turnAvg := turnAvg }

/-- Iterating `tick` from the constructor state over a list of tick inputs. -/
noncomputable def runTicks (inps : List TickInput) : AdaptState :=
  inps.foldl (fun st inp => (tick st inp).state) initState

/-- Scenario B of the spec: a tick at time 5 with a growing buffer
`[100, 500]` and 1000 sent bytes over 5 seconds. -/
def inpB : TickInput := { now := 5, timeDelta := 5, sentSamples := [1000], bufferSizeSamples := [100, 500] }

/-- The state the code reaches after running `inpB` from the constructor
state. -/
def stB : AdaptState :=
  { bwSamples := [200], turnSamples := [], previousTurndown := 5,
    hasFirstTurndown := true, previousVector := -1 }

/-- Scenario C of the spec: the immediately following tick at time 10 with
buffer readings `[200, 0]` and no sent bytes. -/
def inpC : TickInput := { now := 10, timeDelta := 5, sentSamples := [], bufferSizeSamples := [200, 0] }

/-- The state the code reaches after running `inpB` then `inpC`. -/
def stC : AdaptState :=
  { bwSamples := [0, 200], turnSamples := [0], previousTurndown := 5,
    hasFirstTurndown := true, previousVector := 0 }

/-- A drain-to-zero tick at time 0: buffer readings `[0]`, no sent bytes. -/
def inpZ0 : TickInput := { now := 0, timeDelta := 5, sentSamples := [], bufferSizeSamples := [0] }

/-- A drain-to-zero tick at time 5: buffer readings `[0]`, no sent bytes. -/
def inpZ5 : TickInput := { now := 5, timeDelta := 5, sentSamples := [], bufferSizeSamples := [0] }

/-- The state reached after one drain-to-zero tick from the constructor
state: the debounce state is still untouched. -/
def stZ : AdaptState :=
  { bwSamples := [0], turnSamples := [], previousTurndown := 0,
    hasFirstTurndown := false, previousVector := 1 }

/-- A tick at time 10 during which no buffer-depth sample arrived. -/
def inpE : TickInput := { now := 10, timeDelta := 5, sentSamples := [], bufferSizeSamples := [] }

/-! ### Evaluation of the concrete scenario ticks -/

theorem tickB_eq : tick initState inpB =
    { state := stB, direction := -1, turnSamplesAfter := [], vec := -1, turnAvg := 0 } := by
  simp [tick, initState, inpB, stB, pushBounded, bwSampleCount]
  norm_num

theorem tickC_eq : tick stB inpC =
    { state := stC, direction := 0, turnSamplesAfter := [0], vec := 0, turnAvg := 0 } := by
  simp [tick, stB, inpC, stC, pushBounded, bwSampleCount, kPivotSamples]

theorem tickZ0_eq : tick initState inpZ0 =
    { state := stZ, direction := 1, turnSamplesAfter := [], vec := 1, turnAvg := 0 } := by
  simp [tick, initState, inpZ0, stZ, pushBounded, bwSampleCount, kPivotSamples]

theorem tickZ5_eq : tick initState inpZ5 =
    { state := stZ, direction := 1, turnSamplesAfter := [], vec := 1, turnAvg := 0 } := by
  simp [tick, initState, inpZ5, stZ, pushBounded, bwSampleCount, kPivotSamples]

theorem tickZZ_eq : tick stZ inpZ5 =
    { state := { bwSamples := [0, 0], turnSamples := [], previousTurndown := 0,
                 hasFirstTurndown := false, previousVector := 1 },
      direction := 1, turnSamplesAfter := [], vec := 1, turnAvg := 0 } := by
  simp [tick, stZ, inpZ5, pushBounded, bwSampleCount, kPivotSamples]

theorem tickE_eq : tick stB inpE =
    { state := { bwSamples := [0, 200], turnSamples := [], previousTurndown := 5,
                 hasFirstTurndown := true, previousVector := -1 },
      direction := 0, turnSamplesAfter := [], vec := 0, turnAvg := 0 } := by
  simp [tick, stB, inpE, pushBounded, bwSampleCount, kPivotSamples]

/-! ### Structural lemmas about one tick -/

theorem pushBounded_length_le (cap : ℕ) (x : ℚ) (l : List ℚ) (h : l.length ≤ cap) :
    (pushBounded cap x l).length ≤ cap := by
  unfold pushBounded
  by_cases hc : cap < (x :: l).length
  · rw [if_pos hc]
    simpa using h
  · rw [if_neg hc]
    exact Nat.le_of_not_lt hc

/-- When the last buffer reading is 0 and the drain event is accepted, the
direction becomes +1 and the debounce state is left untouched. -/
theorem tick_drain_spec (st : AdaptState) (inp : TickInput)
    (hne : inp.bufferSizeSamples ≠ [])
    (hlast : inp.bufferSizeSamples.getLastD 0 = 0)
    (hcond : st.hasFirstTurndown = false ∨ 10 < inp.now - st.previousTurndown) :
    (tick st inp).direction = 1 ∧
    (tick st inp).state.hasFirstTurndown = st.hasFirstTurndown ∧
    (tick st inp).state.previousTurndown = st.previousTurndown := by
  simp only [tick]
  split_ifs with h1 h2 h3 h4 h5 h6 h7 h8 <;> simp_all

/-- Either a tick leaves the debounce state untouched (and its direction is
not −1), or it fired the filling branch: the buffer strictly grew, the
direction is −1, the timestamp becomes `now` and the flag becomes true. -/
theorem tick_debounce_cases (st : AdaptState) (inp : TickInput) :
    ((tick st inp).state.hasFirstTurndown = st.hasFirstTurndown ∧
     (tick st inp).state.previousTurndown = st.previousTurndown ∧
     (tick st inp).direction ≠ -1)
    ∨ ((tick st inp).state.hasFirstTurndown = true ∧
       (tick st inp).state.previousTurndown = inp.now ∧
       (tick st inp).direction = -1 ∧
       inp.bufferSizeSamples.headI < inp.bufferSizeSamples.getLastD 0) := by
  simp only [tick]
  split_ifs with h1 h2 h3 <;> simp_all <;> decide

theorem magnitude_bounds (s : ℝ) : 1 / 10 ≤ magnitude s ∧ magnitude s ≤ 1 := by
  constructor
  · exact le_min (by norm_num) (le_max_right _ _)
  · exact min_le_left _ _

theorem tick_direction_cases (st : AdaptState) (inp : TickInput) :
    (tick st inp).direction = -1 ∨ (tick st inp).direction = 0 ∨ (tick st inp).direction = 1 := by
  simp only [tick]
  split_ifs <;> simp_all

/-- The emitted vector is the raw direction, or the raw direction scaled by
the magnitude clamp at some slope. -/
theorem tick_vec_shape (st : AdaptState) (inp : TickInput) :
    (tick st inp).vec = ((tick st inp).direction : ℝ) ∨
    ∃ s, (tick st inp).vec = ((tick st inp).direction : ℝ) * magnitude s := by
  simp only [tick]
  split_ifs <;> first | (right; exact ⟨_, rfl⟩) | (left; norm_num)

theorem tick_turn_empty_vec (st : AdaptState) (inp : TickInput)
    (h : (tick st inp).turnSamplesAfter = []) :
    (tick st inp).vec = ((tick st inp).direction : ℝ) := by
  simp only [tick] at h ⊢
  split_ifs at h ⊢ <;> simp_all

/-- A tick with no buffer-depth samples: the callback pair is `(0, 0)` and
everything except the bandwidth window carries over unchanged. -/
theorem tick_buffer_empty_spec (st : AdaptState) (inp : TickInput)
    (h : inp.bufferSizeSamples = []) :
    (tick st inp).vec = 0 ∧ (tick st inp).turnAvg = 0 ∧
    (tick st inp).state.turnSamples = st.turnSamples ∧
    (tick st inp).state.previousTurndown = st.previousTurndown ∧
    (tick st inp).state.hasFirstTurndown = st.hasFirstTurndown ∧
    (tick st inp).state.previousVector = st.previousVector := by
  simp only [tick]
  rw [if_pos h]
  exact ⟨rfl, rfl, rfl, rfl, rfl, rfl⟩

theorem tick_lengths (st : AdaptState) (inp : TickInput)
    (hbw : st.bwSamples.length ≤ bwSampleCount)
    (ht : st.turnSamples.length ≤ kPivotSamples) :
    (tick st inp).state.bwSamples.length ≤ bwSampleCount ∧
    (tick st inp).state.turnSamples.length ≤ kPivotSamples := by
  simp only [tick]
  split_ifs <;>
    simp_all <;>
    first
      | exact pushBounded_length_le _ _ _ hbw
      | constructor <;>
          first
            | exact pushBounded_length_le _ _ _ hbw
            | exact pushBounded_length_le _ _ _ ht
            | exact pushBounded_length_le _ _ _ (pushBounded_length_le _ _ _ ht)

theorem foldl_lengths (inps : List TickInput) (st : AdaptState)
    (hbw : st.bwSamples.length ≤ bwSampleCount)
    (ht : st.turnSamples.length ≤ kPivotSamples) :
    (inps.foldl (fun s i => (tick s i).state) st).bwSamples.length ≤ bwSampleCount ∧
    (inps.foldl (fun s i => (tick s i).state) st).turnSamples.length ≤ kPivotSamples := by
  induction inps generalizing st with
  | nil => exact ⟨hbw, ht⟩
  | cons i is ih =>
    simp only [List.foldl_cons]
    exact ih _ (tick_lengths st i hbw ht).1 (tick_lengths st i hbw ht).2

theorem tick_hft_pres (st : AdaptState) (inp : TickInput)
    (h : ¬ inp.bufferSizeSamples.headI < inp.bufferSizeSamples.getLastD 0) :
    (tick st inp).state.hasFirstTurndown = st.hasFirstTurndown := by
  rcases tick_debounce_cases st inp with ⟨h1, _, _⟩ | ⟨_, _, _, h4⟩
  · exact h1
  · exact absurd h4 h

theorem foldl_hft (inps : List TickInput) (st : AdaptState)
    (hst : st.hasFirstTurndown = false)
    (h : ∀ i ∈ inps, ¬ i.bufferSizeSamples.headI < i.bufferSizeSamples.getLastD 0) :
    (inps.foldl (fun s i => (tick s i).state) st).hasFirstTurndown = false := by
  induction inps generalizing st with
  | nil => exact hst
  | cons i is ih =>
    simp only [List.foldl_cons]
    refine ih _ ?_ (fun j hj => h j (by simp [hj]))
    rw [tick_hft_pres st i (h i (by simp))]
    exact hst

/-- With the debounce armed (`m_hasFirstTurndown` true) and at most 10
seconds elapsed, a last-reading-of-zero tick is classified 0. -/
theorem tick_debounced_zero (st : AdaptState) (inp : TickInput)
    (hne : inp.bufferSizeSamples ≠ [])
    (hlast : inp.bufferSizeSamples.getLastD 0 = 0)
    (hhft : st.hasFirstTurndown = true)
    (hdt : ¬ 10 < inp.now - st.previousTurndown) :
    (tick st inp).direction = 0 := by
  simp only [tick]
  split_ifs <;> simp_all <;> omega

/-! ### The weight table -/

theorem weightNorm_pos : 0 < weightNorm := by
  norm_num [weightNorm, kWeight, bwSampleCount]

theorem bwWeights_getD (i : ℕ) (h : i < 30) :
    bwWeights.getD i 0 = kWeight ^ i / weightNorm := by
  simp [bwWeights, bwSampleCount, List.getD_eq_getElem?_getD, List.getElem?_range h]

theorem sum_map_range_div (n : ℕ) (r v : ℚ) :
    ((List.range n).map (fun i => r ^ i / v)).sum = (∑ i ∈ Finset.range n, r ^ i) / v := by
  induction n with
  | zero => simp
  | succ m ih =>
    rw [List.range_succ, List.map_append, List.sum_append, Finset.sum_range_succ]
    simp [ih, add_div]

theorem bwWeights_sum : bwWeights.sum = 1 := by
  unfold bwWeights
  rw [sum_map_range_div, geom_sum_eq (by norm_num [kWeight])]
  unfold weightNorm kWeight bwSampleCount
  norm_num

/-! ### The claims -/

/-- Claim C1 as stated is false on the code: on the very first tick with buffer
readings `[0]` at time 5, the drain event is accepted (direction becomes +1),
yet `m_hasFirstTurndown` stays `false` and `m_previousTurndown` is not set to
the current time — the accepted-drain branch (line 103) performs no state
update. -/
theorem c1_counterexample :
    (tick initState inpZ5).direction = 1 ∧
    ¬ ((tick initState inpZ5).state.hasFirstTurndown = true) ∧
    ¬ ((tick initState inpZ5).state.previousTurndown = inpZ5.now) := by
  rw [tickZ5_eq]
  refine ⟨rfl, ?_, ?_⟩ <;> simp [stZ, inpZ5]

/-- Claim C1 amended: for every tick whose buffer-depth sequence is non-empty
and whose last reading is 0, if the drain event is accepted
(`hasSeenFirstDrain` is false, or more than 10 seconds have elapsed since
`lastDrainTimestamp`), the tick sets direction to +1 and leaves
`lastDrainTimestamp` and `hasSeenFirstDrain` unchanged (they are mutated only
by the filling branch). -/
theorem c1_thm (st : AdaptState) (inp : TickInput)
    (hne : inp.bufferSizeSamples ≠ [])
    (hlast : inp.bufferSizeSamples.getLastD 0 = 0)
    (hacc : st.hasFirstTurndown = false ∨ 10 < inp.now - st.previousTurndown) :
    (tick st inp).direction = 1 ∧
    (tick st inp).state.hasFirstTurndown = st.hasFirstTurndown ∧
    (tick st inp).state.previousTurndown = st.previousTurndown :=
  tick_drain_spec st inp hne hlast hacc

/-- Witness for `c1_thm` at the concrete first-drain tick `inpZ5`. -/
theorem c1_witness :
    inpZ5.bufferSizeSamples ≠ [] ∧ inpZ5.bufferSizeSamples.getLastD 0 = 0 ∧
    initState.hasFirstTurndown = false ∧
    ((tick initState inpZ5).direction = 1 ∧
     (tick initState inpZ5).state.hasFirstTurndown = initState.hasFirstTurndown ∧
     (tick initState inpZ5).state.previousTurndown = initState.previousTurndown) :=
  ⟨by decide, by decide, rfl,
   c1_thm initState inpZ5 (by decide) (by decide) (Or.inl rfl)⟩

/-- Claim C2 as stated is false on the code: the first tick (buffer `[0]` at
time 0) accepts a drain event and yields direction +1, but since the
accepted-drain branch does not arm the debounce state, the second zero-reading
tick only 5 seconds later again yields direction +1, not the debounced 0. -/
theorem c2_counterexample :
    (tick initState inpZ0).direction = 1 ∧
    (tick (tick initState inpZ0).state inpZ5).direction = 1 ∧
    ¬ ((tick (tick initState inpZ0).state inpZ5).direction = 0) := by
  simp [tickZ0_eq, tickZZ_eq]

/-- Claim C2 amended: the debounce is armed by the filling branch, not by an
accepted drain.  For every pair of consecutive ticks where the first tick
classified filling (direction −1), if the second tick occurs at most 10
(whole) seconds later and its last buffer reading is 0, then the second
tick's classified direction is 0 (the drain is debounced). -/
theorem c2_thm (st : AdaptState) (inp1 inp2 : TickInput)
    (h1 : (tick st inp1).direction = -1)
    (hdt : inp2.now - inp1.now ≤ 10)
    (hne : inp2.bufferSizeSamples ≠ [])
    (hlast : inp2.bufferSizeSamples.getLastD 0 = 0) :
    (tick (tick st inp1).state inp2).direction = 0 := by
  rcases tick_debounce_cases st inp1 with ⟨_, _, hno⟩ | ⟨hhft, hpt, _, _⟩
  · exact absurd h1 hno
  · refine tick_debounced_zero _ inp2 hne hlast hhft ?_
    rw [hpt]
    omega

/-- Witness for `c2_thm`: a filling tick (buffer `[100, 500]`) followed 5
seconds later by a drain-to-zero tick (buffer `[200, 0]`) yields direction 0. -/
theorem c2_witness :
    (tick initState inpB).direction = -1 ∧ inpC.now - inpB.now ≤ 10 ∧
    inpC.bufferSizeSamples ≠ [] ∧ inpC.bufferSizeSamples.getLastD 0 = 0 ∧
    (tick (tick initState inpB).state inpC).direction = 0 :=
  ⟨by rw [tickB_eq], by decide, by decide, by decide,
   c2_thm initState inpB inpC (by rw [tickB_eq]) (by decide) (by decide) (by decide)⟩

/-- Claim C3 as stated is false on the code: after Scenario B (buffer
`[100, 500]`, sent bytes `[1000]`, emitted vector −1.0), the immediately
following tick with buffer readings `[200, 0]` is NOT classified +1 — the
filling tick armed the debounce (`m_hasFirstTurndown = true`,
`m_previousTurndown` = time of B), only 5 seconds have elapsed, so the drain
is rejected: direction is 0 and the emitted vector is 0, not +1. -/
theorem c3_counterexample :
    (tick initState inpB).vec = -1 ∧
    (tick (tick initState inpB).state inpC).direction = 0 ∧
    (tick (tick initState inpB).state inpC).vec = 0 ∧
    ¬ ((tick (tick initState inpB).state inpC).direction = 1 ∧
       (tick (tick initState inpB).state inpC).vec = 1) := by
  simp [tickB_eq, tickC_eq]

/-- Claim C3 amended: Scenario B (buffer `[100, 500]`, positive sent bytes)
yields direction −1 and emitted vector −1.0 with pivot average 0; the
immediately following tick with buffer readings `[200, 0]` yields direction 0
(the drain is debounced by the filling tick 5 seconds earlier), pushes the
current front bandwidth-window value into the turn window (previous vector
was negative and the new direction is non-negative), and emits vector 0. -/
theorem c3_thm :
    (tick initState inpB).direction = -1 ∧
    (tick initState inpB).vec = -1 ∧
    (tick initState inpB).turnAvg = 0 ∧
    (tick (tick initState inpB).state inpC).direction = 0 ∧
    (tick (tick initState inpB).state inpC).turnSamplesAfter =
      [(tick (tick initState inpB).state inpC).state.bwSamples.headI] ∧
    (tick (tick initState inpB).state inpC).vec = 0 := by
  simp [tickB_eq, tickC_eq, stC]

/-- Claim C4 as stated is false on the code: a tick whose buffer-depth
sequence is empty invokes the callback with the freshly zero-initialised pair
`(0, 0)` (lines 84–86 and 152–155), not with the previous tick's pair — here
the previous tick emitted `(−1, 0)`. -/
theorem c4_counterexample :
    inpE.bufferSizeSamples = [] ∧
    (tick initState inpB).vec = -1 ∧ (tick initState inpB).turnAvg = 0 ∧
    (tick (tick initState inpB).state inpE).vec = 0 ∧
    ¬ ((tick (tick initState inpB).state inpE).vec = (tick initState inpB).vec ∧
       (tick (tick initState inpB).state inpE).turnAvg = (tick initState inpB).turnAvg) := by
  refine ⟨rfl, ?_⟩
  simp [tickB_eq, tickE_eq]

/-- Claim C4 amended: for every tick whose collected buffer-depth sequence is
empty, the detector takes no action — the turn window, the debounce state and
the stored previous vector carry over unchanged — but the callback is invoked
with the pair `(0, 0)`, regardless of what the previous tick emitted. -/
theorem c4_thm (st : AdaptState) (inp : TickInput)
    (h : inp.bufferSizeSamples = []) :
    (tick st inp).vec = 0 ∧ (tick st inp).turnAvg = 0 ∧
    (tick st inp).state.turnSamples = st.turnSamples ∧
    (tick st inp).state.previousTurndown = st.previousTurndown ∧
    (tick st inp).state.hasFirstTurndown = st.hasFirstTurndown ∧
    (tick st inp).state.previousVector = st.previousVector :=
  tick_buffer_empty_spec st inp h

/-- Witness for `c4_thm` at the concrete empty-buffer tick `inpE` from state
`stB`. -/
theorem c4_witness :
    inpE.bufferSizeSamples = [] ∧
    ((tick stB inpE).vec = 0 ∧ (tick stB inpE).turnAvg = 0 ∧
     (tick stB inpE).state.turnSamples = stB.turnSamples ∧
     (tick stB inpE).state.previousTurndown = stB.previousTurndown ∧
     (tick stB inpE).state.hasFirstTurndown = stB.hasFirstTurndown ∧
     (tick stB inpE).state.previousVector = stB.previousVector) :=
  ⟨rfl, c4_thm stB inpE rfl⟩

/-- Claim C5: for every tick, the classified direction is in {−1, 0, +1},
the magnitude clamp `min(1, max(atan(slope)/(π/2), 0.1))` always lies in
[0.1, 1], and the vector delivered to the callback lies in [−1, 1]. -/
theorem c5_thm (st : AdaptState) (inp : TickInput) :
    ((tick st inp).direction = -1 ∨ (tick st inp).direction = 0 ∨
     (tick st inp).direction = 1) ∧
    (∀ s : ℝ, 1 / 10 ≤ magnitude s ∧ magnitude s ≤ 1) ∧
    -1 ≤ (tick st inp).vec ∧ (tick st inp).vec ≤ 1 := by
  refine ⟨tick_direction_cases st inp, magnitude_bounds, ?_⟩
  have hd : |((tick st inp).direction : ℝ)| ≤ 1 := by
    rcases tick_direction_cases st inp with h | h | h <;> rw [h] <;> norm_num
  have hv : |(tick st inp).vec| ≤ 1 := by
    rcases tick_vec_shape st inp with h | ⟨s, h⟩
    · rw [h]; exact hd
    · rw [h, abs_mul]
      have hm := magnitude_bounds s
      have hma : |magnitude s| ≤ 1 := by
        rw [abs_of_nonneg (le_trans (by norm_num) hm.1)]
        exact hm.2
      exact mul_le_one₀ hd (abs_nonneg _) hma
  exact abs_le.mp hv

/-- Claim C6: for every tick at which the turn window is empty when the
synthesizer runs, the emitted vector equals the raw classified direction with
no magnitude scaling. -/
theorem c6_thm (st : AdaptState) (inp : TickInput)
    (h : (tick st inp).turnSamplesAfter = []) :
    (tick st inp).vec = ((tick st inp).direction : ℝ) :=
  tick_turn_empty_vec st inp h

/-- Witness for `c6_thm` at the concrete filling tick `inpB` from the
constructor state. -/
theorem c6_witness :
    (tick initState inpB).turnSamplesAfter = [] ∧
    (tick initState inpB).vec = ((tick initState inpB).direction : ℝ) :=
  ⟨by rw [tickB_eq], c6_thm initState inpB (by rw [tickB_eq])⟩

/-- Claim C7: over every input history, the bandwidth window never holds more
than 30 entries and the turn window never holds more than 5 entries. -/
theorem c7_thm (inps : List TickInput) :
    (runTicks inps).bwSamples.length ≤ 30 ∧
    (runTicks inps).turnSamples.length ≤ 5 :=
  foldl_lengths inps initState (by simp [initState]) (by simp [initState])

/-- Claim C8: the 30 weights precomputed at construction form a normalized
geometric series with ratio 0.75: weight `i` equals `0.75^i` divided by
`(1 − 0.75^30)/(1 − 0.75)`, the weight at index 0 is the largest, and in
exact arithmetic the weights sum to 1. -/
theorem c8_thm :
    kWeight = 3 / 4 ∧ bwWeights.length = 30 ∧
    (∀ i : Fin 30, bwWeights.getD i.val 0 =
      (3 / 4 : ℚ) ^ i.val / ((1 - (3 / 4 : ℚ) ^ 30) / (1 - 3 / 4))) ∧
    (∀ i : Fin 30, bwWeights.getD i.val 0 ≤ bwWeights.getD 0 0) ∧
    bwWeights.sum = 1 := by
  refine ⟨rfl, by simp [bwWeights, bwSampleCount], fun i => ?_, fun i => ?_, bwWeights_sum⟩
  · rw [bwWeights_getD i.val i.isLt]
    rfl
  · rw [bwWeights_getD i.val i.isLt, bwWeights_getD 0 (by norm_num)]
    rw [div_eq_mul_inv, div_eq_mul_inv]
    refine mul_le_mul_of_nonneg_right ?_ (inv_nonneg.mpr (le_of_lt weightNorm_pos))
    exact pow_le_pow_of_le_one (by norm_num [kWeight]) (by norm_num [kWeight]) (Nat.zero_le _)

/-- Claim C9: the synthesizer's non-empty-turn-window branch is reachable
with pivot average 0.  Concretely: from the constructor state, a filling tick
(buffer `[100, 500]`) followed by a tick with buffer `[200, 0]` and no sent
bytes (instantaneous throughput 0) pushes the zero front bandwidth value into
the turn window, so the branch at line 126 runs with `turnAvg = 0` and the
unguarded division `(detectedBytesPerSec - avg) / turnAvg` divides by zero. -/
theorem c9_thm :
    (tick (runTicks [inpB]) inpC).turnSamplesAfter ≠ [] ∧
    (tick (runTicks [inpB]) inpC).turnAvg = 0 := by
  have h : runTicks [inpB] = stB := by
    simp [runTicks, tickB_eq]
  rw [h, tickC_eq]
  simp

/-- Claim C10: the debounce state (`m_hasFirstTurndown`,
`m_previousTurndown`) is mutated only by the filling branch, never by the
accepted-drain branch; consequently, in every run in which no tick ever
observed a growing buffer, every tick whose last buffer reading is 0 is
classified +1, regardless of how little time separates such ticks. -/
theorem c10_thm :
    (∀ st inp, ((tick st inp).state.hasFirstTurndown ≠ st.hasFirstTurndown ∨
                (tick st inp).state.previousTurndown ≠ st.previousTurndown) →
       (tick st inp).direction = -1 ∧
       inp.bufferSizeSamples.headI < inp.bufferSizeSamples.getLastD 0) ∧
    (∀ inps inp2,
       (∀ i ∈ inps, ¬ i.bufferSizeSamples.headI < i.bufferSizeSamples.getLastD 0) →
       inp2.bufferSizeSamples ≠ [] → inp2.bufferSizeSamples.getLastD 0 = 0 →
       (tick (runTicks inps) inp2).direction = 1) := by
  constructor
  · intro st inp hch
    rcases tick_debounce_cases st inp with ⟨h1, h2, _⟩ | ⟨_, _, h3, h4⟩
    · rcases hch with hc | hc
      · exact absurd h1 hc
      · exact absurd h2 hc
    · exact ⟨h3, h4⟩
  · intro inps inp2 hng hne hlast
    have hft : (runTicks inps).hasFirstTurndown = false :=
      foldl_hft inps initState rfl hng
    exact (tick_drain_spec (runTicks inps) inp2 hne hlast (Or.inl hft)).1

/-- Witness for `c10_thm`: the filling tick `inpB` mutates the debounce state
and is classified −1; and after a run consisting of one zero-reading,
non-growing tick, a second zero-reading tick 5 seconds later is again
classified +1. -/
theorem c10_witness :
    ((tick initState inpB).state.hasFirstTurndown ≠ initState.hasFirstTurndown) ∧
    ((tick initState inpB).direction = -1 ∧
     inpB.bufferSizeSamples.headI < inpB.bufferSizeSamples.getLastD 0) ∧
    (tick (runTicks [inpZ0]) inpZ5).direction = 1 := by
  have hch : (tick initState inpB).state.hasFirstTurndown ≠ initState.hasFirstTurndown := by
    rw [tickB_eq]
    simp [stB, initState]
  have hng : ∀ i ∈ [inpZ0], ¬ i.bufferSizeSamples.headI < i.bufferSizeSamples.getLastD 0 := by
    intro i hi
    rw [List.mem_singleton] at hi
    subst hi
    decide
  exact ⟨hch, c10_thm.1 initState inpB (Or.inl hch),
         c10_thm.2 [inpZ0] inpZ5 hng (by decide) (by decide)⟩

end VideoCore
